import Mathlib

/-!
Shallow embedding of the agent-result normalization and persistence logic of
`backend/main.py` (JobFit).  Python strings are modelled as `List Char`;
loosely-typed Python values (the attributes of agent results and payloads)
are modelled by the inductive `PyVal`; Python objects are association lists
from attribute names to values, so `getattr`/`hasattr` become list lookups.
Operations that can raise return `Except PyErr _`.
-/

namespace JobFit

/-- Python strings, modelled as lists of characters. -/
abbrev PyStr := List Char

/-- `str.strip()`: remove leading and trailing whitespace. -/
def pyStrip (s : PyStr) : PyStr :=
  ((s.dropWhile Char.isWhitespace).reverse.dropWhile Char.isWhitespace).reverse

/-- Does `hay` start with `needle`? -/
def strStartsWith (needle hay : PyStr) : Bool :=
  match needle, hay with
  | [], _ => true
  | _ :: _, [] => false
  | a :: as, b :: bs => a == b && strStartsWith as bs

/-- Python's substring test `needle in hay` for strings. -/
def strContains (needle hay : PyStr) : Bool :=
  match hay with
  | [] => needle.isEmpty
  | _ :: t => strStartsWith needle hay || strContains needle t

/-- The error-marker substring `"Error:"` tested by the validation gate. -/
def errMarker : PyStr := "Error:".toList

/-- Loosely-typed Python values as they appear in agent results: `None`,
strings, integers, lists, objects with attributes, and callables (mock-like
placeholder objects exposing call semantics; the flag says whether calling
them raises, and the second argument is the value returned otherwise). -/
inductive PyVal : Type where
  | vNone : PyVal
  | vStr : PyStr → PyVal
  | vInt : Int → PyVal
  | vList : List PyVal → PyVal
  | vObj : List (String × PyVal) → PyVal
  | vCallable : Bool → PyVal → PyVal

/-- A Python object: a finite map from attribute names to values. -/
abbrev Obj := List (String × PyVal)

/-- The exceptions the embedded fragments can raise. -/
inductive PyErr : Type where
  | raised : PyErr
  | typeError : PyErr
  | attributeError : PyErr
  | valueError : PyErr
  | indexError : PyErr
deriving DecidableEq

/-- Attribute lookup on an object: `some v` iff the attribute is present. -/
def lookupAttr (o : Obj) (name : String) : Option PyVal :=
  (o.find? (fun p => p.1 == name)).map (fun p => p.2)

/-- `hasattr(o, name)`. -/
def hasattrO (o : Obj) (name : String) : Bool :=
  (lookupAttr o name).isSome

/-- `getattr(o, name, default)` on an object. -/
def getattrO (o : Obj) (name : String) (default : PyVal) : PyVal :=
  (lookupAttr o name).getD default

/-- `getattr(v, name, default)` on an arbitrary value: non-object values
expose none of the payload attributes, so the default is substituted. -/
def getattrV (v : PyVal) (name : String) (default : PyVal) : PyVal :=
  match v with
  | .vObj attrs => getattrO attrs name default
  | _ => default

/-- Python truthiness (`if v:` / `not v`). -/
def pyTruthy (v : PyVal) : Bool :=
  match v with
  | .vNone => false
  | .vStr s => !s.isEmpty
  | .vInt n => n != 0
  | .vList xs => !xs.isEmpty
  | .vObj _ => true
  | .vCallable _ _ => true

/-- `v is not None`. -/
def isNotNoneV (v : PyVal) : Bool :=
  match v with
  | .vNone => false
  | _ => true

/-- Python `v == s` against a string literal: value equality for strings,
`False` for every other type (including mock objects and `None`). -/
def pyEqStr (v : PyVal) (s : PyStr) : Bool :=
  match v with
  | .vStr t => t == s
  | _ => false

/-- Does the value expose call semantics (`hasattr(v, "__call__")`)? -/
def isCallableV (v : PyVal) : Bool :=
  match v with
  | .vCallable _ _ => true
  | _ => false

/-- Calling a value: callables return their payload or raise; calling a
non-callable raises `TypeError`. -/
def pyCall (v : PyVal) : Except PyErr PyVal :=
  match v with
  | .vCallable true _ => .error .raised
  | .vCallable false r => .ok r
  | _ => .error .typeError

/-! ## ResultUnwrapper: `extract_agent_data` (main.py lines 113-148) -/

/-- The body of the `try` block at the top of `extract_agent_data`: if the
result has a `usage` attribute, call it and read the token-count attributes
(each defaulting to 0).  The values are only logged; the call can raise. -/
def usage_block (r : Obj) : Except PyErr PyVal := do
  if hasattrO r "usage" then
    let usage ← pyCall (getattrO r "usage" .vNone)
    let total := getattrV usage "total_tokens" (.vInt 0)
    let req := getattrV usage "request_tokens" (.vInt 0)
    let resp := getattrV usage "response_tokens" (.vInt 0)
    return .vList [total, req, resp]
  else
    return .vNone

/-- The slot-probing part of `extract_agent_data`: try `.output` and `.data`,
then `.result`, `.content`, `.message`, returning the first attribute whose
value `is not None`; then, if the result has a `.text` attribute, return its
value (whatever it is); otherwise return the result object itself. -/
def probe_slots (r : Obj) : PyVal :=
  let o := getattrO r "output" .vNone
  if isNotNoneV o then o else
  let d := getattrO r "data" .vNone
  if isNotNoneV d then d else
  let res := getattrO r "result" .vNone
  if isNotNoneV res then res else
  let c := getattrO r "content" .vNone
  if isNotNoneV c then c else
  let m := getattrO r "message" .vNone
  if isNotNoneV m then m else
  match lookupAttr r "text" with
  | some t => t
  | none => .vObj r

/-- `extract_agent_data(result)`: run the usage/telemetry `try` block,
swallowing any exception it raises (`except Exception: log_debug(...)`),
then probe the payload slots.  The `Except` in the result type records
that the function as a whole could in principle raise; the theorems show
it never does. -/
def extract_agent_data (r : Obj) : Except PyErr PyVal :=
  match usage_block r with
  | .ok _ => .ok (probe_slots r)
  | .error _ => .ok (probe_slots r)

/-- Modelled from the spec's words (section 4.1), for comparison with
`probe_slots`: probe all six slots uniformly for a non-null value and
return the first match, falling back to the input object unchanged. -/
def extract_spec (r : Obj) : PyVal :=
  let o := getattrO r "output" .vNone
  if isNotNoneV o then o else
  let d := getattrO r "data" .vNone
  if isNotNoneV d then d else
  let res := getattrO r "result" .vNone
  if isNotNoneV res then res else
  let c := getattrO r "content" .vNone
  if isNotNoneV c then c else
  let m := getattrO r "message" .vNone
  if isNotNoneV m then m else
  let t := getattrO r "text" .vNone
  if isNotNoneV t then t else .vObj r

/-- Do the five getattr-probed slots all read as null? -/
def fiveSlotsNull (r : Obj) : Bool :=
  !(isNotNoneV (getattrO r "output" .vNone))
    && !(isNotNoneV (getattrO r "data" .vNone))
    && !(isNotNoneV (getattrO r "result" .vNone))
    && !(isNotNoneV (getattrO r "content" .vNone))
    && !(isNotNoneV (getattrO r "message" .vNone))

/-- Is the `text` attribute present with value `None`? -/
def textIsNull (r : Obj) : Bool :=
  match lookupAttr r "text" with
  | some .vNone => true
  | _ => false

/-! ## The job-description validity gate (main.py lines 470-479) -/

/-- Python `"Error:" in hay` / generally `needle in hay`: substring test on
strings, `==`-membership on lists, `TypeError` on anything else. -/
def pyInOp (needle : PyStr) (hay : PyVal) : Except PyErr Bool :=
  match hay with
  | .vStr s => .ok (strContains needle s)
  | .vList xs => .ok (xs.any (fun x => pyEqStr x needle))
  | _ => .error .typeError

/-- `len(v.strip())`: only strings have `.strip`. -/
def pyStripLen (v : PyVal) : Except PyErr Nat :=
  match v with
  | .vStr s => .ok (pyStrip s).length
  | _ => .error .attributeError

/-- The validation condition of `analyze_job`, with Python's short-circuit
evaluation: `not extracted_jd or "Error:" in extracted_jd or
len(extracted_jd.strip()) < 50`.  `.ok true` means the extraction is
rejected (HTTP 400); the middle and right disjuncts can raise on
non-string values. -/
def jd_invalid_check (jd : PyVal) : Except PyErr Bool :=
  if !(pyTruthy jd) then .ok true
  else do
    let hasErr ← pyInOp errMarker jd
    if hasErr then return true
    else
      let n ← pyStripLen jd
      return decide (n < 50)

/-! ## FieldValidator: default-producing field extraction (main.py
lines 465-468, 483, 492-494) -/

/-- The company-name sentinel `"Unknown Company"`. -/
def sentinelCompany : PyStr := "Unknown Company".toList

/-- The job-title default `"Job Title"`. -/
def defaultTitle : PyStr := "Job Title".toList

/-- The transient record of fields read defensively off the unwrapped
payload.  Every read is `getattr(data, name, default)`; the function is
total (no exception is possible for a missing attribute). -/
structure ExtractedFields where
  company : PyVal
  title : PyVal
  match_score : PyVal
  extracted_jd : PyVal
  key_improvements : PyVal
  tailored_resume_html : PyVal
  cover_letter_html : PyVal

/-- The seven `getattr`-with-default reads `analyze_job` performs on the
unwrapped payload. -/
def extract_fields (data : PyVal) : ExtractedFields :=
  { company := getattrV data "company_name" (.vStr sentinelCompany)
  , title := getattrV data "job_title" (.vStr defaultTitle)
  , match_score := getattrV data "match_score" (.vInt 0)
  , extracted_jd := getattrV data "extracted_job_description" (.vStr [])
  , key_improvements := getattrV data "key_improvements" (.vList [])
  , tailored_resume_html := getattrV data "tailored_resume_html" (.vStr [])
  , cover_letter_html := getattrV data "cover_letter_html" (.vStr []) }

/-- `len(v)` for sequences; `TypeError` otherwise. -/
def pyLen (v : PyVal) : Except PyErr Nat :=
  match v with
  | .vStr s => .ok s.length
  | .vList xs => .ok xs.length
  | _ => .error .typeError

/-- `v[0]`: first element of a list, or a one-character string. -/
def pySubscript0 (v : PyVal) : Except PyErr PyVal :=
  match v with
  | .vList (x :: _) => .ok x
  | .vStr (c :: _) => .ok (.vStr [c])
  | _ => .error .indexError

/-- Iterating a value, as the line-457 response-preview comprehension
`[str(i) for i in getattr(data, "key_improvements", [])]` does: lists
yield their elements, strings their characters, anything else raises
`TypeError`. -/
def pyIter (v : PyVal) : Except PyErr (List PyVal) :=
  match v with
  | .vList xs => .ok xs
  | .vStr s => .ok (s.map (fun c => .vStr [c]))
  | _ => .error .typeError

/-- `v[:100]`, as the line-472 failure log computes on the extracted
description before the 400 is raised: strings and lists slice, anything
else raises `TypeError`. -/
def pySlice100 (v : PyVal) : Except PyErr PyVal :=
  match v with
  | .vStr s => .ok (.vStr (s.take 100))
  | .vList xs => .ok (.vList (xs.take 100))
  | _ => .error .typeError

/-- The company fallback of `analyze_job` (lines 481-485): if the company
resolved to the sentinel, read `key_improvements` (default `[]`) and, when
it is truthy with positive length, substitute its first element. -/
def company_fallback (company : PyVal) (data : PyVal) : Except PyErr PyVal :=
  if pyEqStr company sentinelCompany then
    let improvements := getattrV data "key_improvements" (.vList [])
    if pyTruthy improvements then do
      let n ← pyLen improvements
      if 0 < n then pySubscript0 improvements else return company
    else
      return company
  else
    return company

/-! ## Persistence model: resumes, jobs, the analyze endpoint -/

inductive JobStatus : Type where
  | todo : JobStatus
  | applied : JobStatus
  | interview : JobStatus
deriving DecidableEq

structure Resume where
  id : Nat
  name : PyStr
  content : PyStr
  is_selected : Bool
deriving DecidableEq

/-- A row of the `jobs` table, as built by `analyze_job` / mutated by
`regenerate_job_content`.  Fields that the Python code assigns from
loosely-typed payload values are modelled as `PyVal`. -/
structure Job where
  id : Nat
  resume_id : Nat
  url : Option PyStr
  company : PyVal
  title : PyVal
  original_jd : PyVal
  tailored_resume : PyVal
  cover_letter : PyVal
  match_score : PyVal
  status : JobStatus

structure DB where
  resumes : List Resume
  jobs : List Job
  nextJobId : Nat

/-- The request body of `POST /api/analyze`. -/
structure AnalyzeReq where
  url : Option PyStr
  description : Option PyStr
  resume_id : Nat

/-- The outcome of `analyze_job` as seen by the client: a 200 payload, an
`HTTPException` with a 4xx status, or the generic 500 handler. -/
inductive AnalyzeResp : Type where
  | ok : Nat → PyVal → PyVal → PyVal → PyVal → AnalyzeResp
  | clientError : Nat → AnalyzeResp
  | serverError : AnalyzeResp

/-- `analyze_job` (main.py lines 420-518), from the resume lookup onwards.
The agent invocation is a parameter: `.error` means `resume_agent.run`
raised (mapped to 500 by the blanket `except`); `.ok result` is the agent
result object.  The two raising log expressions inside the `try` are kept:
the response-preview comprehension iterates `key_improvements` before the
gate (line 457), and the failure log slices the extracted description
before the 400 is raised (line 472); either raising turns the outcome into
a 500.  Persistence is modelled by appending the new `Job` row. -/
def analyze_job (req : AnalyzeReq) (agent : Except PyErr Obj) (db : DB) :
    DB × AnalyzeResp :=
  match db.resumes.find? (fun r => r.id == req.resume_id) with
  | none => (db, .clientError 404)
  | some _resume =>
    match agent with
    | .error _ => (db, .serverError)
    | .ok result =>
      match extract_agent_data result with
      | .error _ => (db, .serverError)
      | .ok data =>
        match pyIter (getattrV data "key_improvements" (.vList [])) with
        | .error _ => (db, .serverError)
        | .ok _improvements_preview =>
        let company := getattrV data "company_name" (.vStr sentinelCompany)
        let title := getattrV data "job_title" (.vStr defaultTitle)
        let match_score := getattrV data "match_score" (.vInt 0)
        let extracted_jd := getattrV data "extracted_job_description" (.vStr [])
        match jd_invalid_check extracted_jd with
        | .error _ => (db, .serverError)
        | .ok true =>
          match pySlice100 extracted_jd with
          | .error _ => (db, .serverError)
          | .ok _failure_log_preview => (db, .clientError 400)
        | .ok false =>
          match company_fallback company data with
          | .error _ => (db, .serverError)
          | .ok company2 =>
            let origDefault : PyStr :=
              match req.description with
              | some d => d
              | none => []
            let job : Job :=
              { id := db.nextJobId
              , resume_id := req.resume_id
              , url := req.url
              , company := company2
              , title := title
              , original_jd :=
                  getattrV data "extracted_job_description" (.vStr origDefault)
              , tailored_resume := getattrV data "tailored_resume_html" (.vStr [])
              , cover_letter := getattrV data "cover_letter_html" (.vStr [])
              , match_score := match_score
              , status := .todo }
            ({ db with jobs := db.jobs ++ [job], nextJobId := db.nextJobId + 1 },
             .ok job.id job.match_score job.company job.tailored_resume
               job.cover_letter)

/-! ## `regenerate_job_content` (main.py lines 635-706) -/

/-- Digit string to number. -/
def digitsToNat (ds : List Char) : Nat :=
  ds.foldl (fun a c => a * 10 + (c.toNat - 48)) 0

/-- `int(s)` on a string: optional sign then decimal digits, surrounding
whitespace allowed; anything else is a `ValueError`. -/
def parseIntStr (s : PyStr) : Option Int :=
  match pyStrip s with
  | [] => none
  | c :: rest =>
    if c = '-' then
      if rest ≠ [] ∧ rest.all Char.isDigit then some (-(digitsToNat rest : Int))
      else none
    else if c = '+' then
      if rest ≠ [] ∧ rest.all Char.isDigit then some (digitsToNat rest)
      else none
    else if (c :: rest).all Char.isDigit then some (digitsToNat (c :: rest))
    else none

/-- `str(v)`.  The exact rendering of non-string values is irrelevant to
the claims; strings pass through unchanged. -/
def pyStrOf (v : PyVal) : PyStr :=
  match v with
  | .vStr s => s
  | .vNone => "None".toList
  | .vInt n => (toString n).toList
  | .vList _ => "[...]".toList
  | .vObj _ => "<object>".toList
  | .vCallable _ _ => "<callable>".toList

/-- `int(v)`: integers pass through, strings are parsed, everything else
raises (`TypeError`, or `ValueError` for an unparsable string). -/
def pyIntOf (v : PyVal) : Except PyErr Int :=
  match v with
  | .vInt n => .ok n
  | .vStr s =>
    match parseIntStr s with
    | some n => .ok n
    | none => .error .valueError
  | _ => .error .typeError

/-- The conditional field updates of `regenerate_job_content` (lines
679-693): each of the three slots is read with `getattr(data, _, None)`
and assigned only when it `is not None` and does not expose `__call__`;
the score additionally goes through `int(...)` with `ValueError` /
`TypeError` caught and ignored. -/
def regenerate_apply (job : Job) (data : PyVal) : Job :=
  let new_resume := getattrV data "tailored_resume_html" .vNone
  let new_cover := getattrV data "cover_letter_html" .vNone
  let new_score := getattrV data "match_score" .vNone
  let job1 :=
    if isNotNoneV new_resume && !(isCallableV new_resume) then
      { job with tailored_resume := .vStr (pyStrOf new_resume) }
    else job
  let job2 :=
    if isNotNoneV new_cover && !(isCallableV new_cover) then
      { job1 with cover_letter := .vStr (pyStrOf new_cover) }
    else job1
  if isNotNoneV new_score && !(isCallableV new_score) then
    match pyIntOf new_score with
    | .ok n => { job2 with match_score := .vInt n }
    | .error _ => job2
  else job2

/-- The outcome of `regenerate_job_content` as seen by the client. -/
inductive RegenResp : Type where
  | ok : PyVal → PyVal → PyVal → RegenResp
  | serverError : RegenResp

/-- `regenerate_job_content` from the agent call onwards (the job and
resume lookups have already succeeded): unwrap the result, test `if data:`
(falsy data is a 500), apply the conditional updates and commit. -/
def regenerate_run (job : Job) (agent : Except PyErr Obj) : Job × RegenResp :=
  match agent with
  | .error _ => (job, .serverError)
  | .ok result =>
    match extract_agent_data result with
    | .error _ => (job, .serverError)
    | .ok data =>
      if pyTruthy data then
        let j := regenerate_apply job data
        (j, .ok j.tailored_resume j.cover_letter j.match_score)
      else (job, .serverError)

/-! ## Resume selection (main.py lines 151-354) -/

/-- `db.query(models.Resume).update({models.Resume.is_selected: False})`. -/
def deselect_all (rs : List Resume) : List Resume :=
  rs.map (fun r => { r with is_selected := false })

/-- `upload_resume` after validation succeeded: deselect every resume and
insert the new one as selected. -/
def upload_resume (rs : List Resume) (newId : Nat) (name content : PyStr) :
    List Resume :=
  deselect_all rs ++ [{ id := newId, name := name, content := content,
                        is_selected := true }]

/-- `import_resume_from_url` after the scrape was accepted: same
deselect-then-insert-selected shape as `upload_resume`. -/
def import_resume_from_url (rs : List Resume) (newId : Nat)
    (name content : PyStr) : List Resume :=
  deselect_all rs ++ [{ id := newId, name := name, content := content,
                        is_selected := true }]

/-- `add_resume_manual` after cleaning: deselect all, insert selected. -/
def add_resume_manual (rs : List Resume) (newId : Nat)
    (name content : PyStr) : List Resume :=
  deselect_all rs ++ [{ id := newId, name := name, content := content,
                        is_selected := true }]

/-- `update_resume`: 404 when the id is unknown; otherwise update name and
content, deselect all others only when the request newly selects this
resume (`request.is_selected and not resume.is_selected`), then set the
row's flag to the requested value. -/
def update_resume (rs : List Resume) (rid : Nat) (name content : PyStr)
    (req_sel : Bool) : Option (List Resume) :=
  match rs.find? (fun r => r.id == rid) with
  | none => none
  | some resume =>
    let rs1 := rs.map (fun r =>
      if r.id = rid then { r with name := name, content := content } else r)
    let rs2 := if req_sel && !resume.is_selected then deselect_all rs1 else rs1
    some (rs2.map (fun r =>
      if r.id = rid then { r with is_selected := req_sel } else r))

/-- `set_selected_resume`: 404 when the id is unknown; otherwise deselect
every resume and select the requested one. -/
def set_selected_resume (rs : List Resume) (rid : Nat) :
    Option (List Resume) :=
  match rs.find? (fun r => r.id == rid) with
  | none => none
  | some _ =>
    some ((deselect_all rs).map (fun r =>
      if r.id = rid then { r with is_selected := true } else r))

/-- Number of selected rows. -/
def selCount (rs : List Resume) : Nat :=
  rs.countP (fun r => r.is_selected)

/-- The single-selection invariant: at most one resume row is selected. -/
abbrev atMostOneSelected (rs : List Resume) : Prop :=
  selCount rs ≤ 1

/-! ## Helper lemmas -/

/-- On a string, the validation condition evaluates without raising, to the
disjunction of the three rejection tests in source order. -/
theorem jd_invalid_check_vStr (s : PyStr) :
    jd_invalid_check (.vStr s) =
      .ok (s.isEmpty || (strContains errMarker s ||
        decide ((pyStrip s).length < 50))) := by
  by_cases h1 : s.isEmpty <;> by_cases h2 : strContains errMarker s <;>
    simp [jd_invalid_check, pyTruthy, pyInOp, pyStripLen, h1, h2, bind,
      Except.bind, pure, Except.pure]

theorem pyStrip_nil : pyStrip [] = [] := rfl

/-! ## Claim theorems -/

/-- C1: over description strings, the validation verdict is valid iff the
string is non-empty, does not contain `"Error:"`, and has trimmed length at
least 50; any string of trimmed length exactly 49 is invalid, any string of
trimmed length exactly 50 without `"Error:"` is valid, and any string
containing `"Error:"` is invalid regardless of its length. -/
theorem C1_jd_validity_gate :
    (∀ s : PyStr, jd_invalid_check (.vStr s) = .ok false ↔
      (s ≠ [] ∧ strContains errMarker s = false ∧ 50 ≤ (pyStrip s).length))
    ∧ (∀ s : PyStr, (pyStrip s).length = 49 →
        jd_invalid_check (.vStr s) = .ok true)
    ∧ (∀ s : PyStr, (pyStrip s).length = 50 → strContains errMarker s = false →
        jd_invalid_check (.vStr s) = .ok false)
    ∧ (∀ s : PyStr, strContains errMarker s = true →
        jd_invalid_check (.vStr s) = .ok true) := by
  have hempty : ∀ s : PyStr, s.isEmpty = true → pyStrip s = [] := by
    intro s hs
    rw [List.isEmpty_iff.mp hs, pyStrip_nil]
  refine ⟨?_, ?_, ?_, ?_⟩ <;> intro s
  · rw [jd_invalid_check_vStr]
    constructor
    · intro h
      simp only [Except.ok.injEq, Bool.or_eq_false_iff, decide_eq_false_iff_not,
        Nat.not_lt] at h
      exact ⟨fun hnil => by simp [hnil] at h, h.2.1, h.2.2⟩
    · rintro ⟨h1, h2, h3⟩
      simp [h2, List.isEmpty_iff, h1, Nat.not_lt.mpr h3]
  · intro h49
    rw [jd_invalid_check_vStr]
    have : decide ((pyStrip s).length < 50) = true := by
      simp [h49]
    simp [this]
  · intro h50 herr
    rw [jd_invalid_check_vStr]
    have hne : s.isEmpty = false := by
      cases hs : s.isEmpty
      · rfl
      · rw [hempty s hs] at h50
        simp at h50
    simp [hne, herr, h50]
  · intro herr
    rw [jd_invalid_check_vStr]
    simp [herr]

/-- Witness for C1 at concrete boundary strings. -/
theorem C1_jd_validity_gate_witness :
    jd_invalid_check (.vStr (List.replicate 49 'a')) = .ok true
    ∧ jd_invalid_check (.vStr (List.replicate 50 'a')) = .ok false
    ∧ jd_invalid_check (.vStr ("Error: could not read the page".toList)) =
        .ok true :=
  ⟨C1_jd_validity_gate.2.1 _ (by decide),
   C1_jd_validity_gate.2.2.1 _ (by decide) (by decide),
   C1_jd_validity_gate.2.2.2 _ (by decide)⟩

/-- Whatever the usage/telemetry block does, `extract_agent_data` returns
normally with the probed payload. -/
theorem extract_agent_data_ok (r : Obj) :
    extract_agent_data r = .ok (probe_slots r) := by
  unfold extract_agent_data
  cases usage_block r <;> rfl

/-- An agent result whose only attribute is `text`, holding `None`. -/
def textNullResult : Obj := [("text", PyVal.vNone)]

/-- C2 counterexample: on an agent result whose `text` attribute is present
but null, none of the six slots yields a non-null value, yet the unwrapper
returns that null value rather than the input object unchanged. -/
theorem C2_counterexample_text_null :
    fiveSlotsNull textNullResult = true
    ∧ getattrO textNullResult "text" .vNone = .vNone
    ∧ extract_agent_data textNullResult = .ok .vNone
    ∧ extract_agent_data textNullResult ≠ .ok (.vObj textNullResult) := by
  refine ⟨rfl, rfl, rfl, fun h => ?_⟩
  rw [show extract_agent_data textNullResult = Except.ok PyVal.vNone from rfl]
    at h
  injection h with h2
  exact PyVal.noConfusion h2

/-- C2 amended: the unwrapper returns the first non-null value among the
`output`, `data`, `result`, `content`, `message` probes; failing those, if
the `text` attribute is present it returns its value even when that value
is null; the input object itself is returned only when `text` is absent.
Equivalently, it agrees with the spec's six-slot probe except in the single
case where the five slots are null and `text` is present with value null,
where it returns null instead of the input object. -/
theorem C2_unwrap_priority_amended (r : Obj) :
    probe_slots r =
      if fiveSlotsNull r && textIsNull r then PyVal.vNone
      else extract_spec r := by
  unfold probe_slots extract_spec fiveSlotsNull textIsNull
  by_cases h1 : isNotNoneV (getattrO r "output" .vNone)
  · simp [h1]
  by_cases h2 : isNotNoneV (getattrO r "data" .vNone)
  · simp [h1, h2]
  by_cases h3 : isNotNoneV (getattrO r "result" .vNone)
  · simp [h1, h2, h3]
  by_cases h4 : isNotNoneV (getattrO r "content" .vNone)
  · simp [h1, h2, h3, h4]
  by_cases h5 : isNotNoneV (getattrO r "message" .vNone)
  · simp [h1, h2, h3, h4, h5]
  simp only [h1, h2, h3, h4, h5, if_false, Bool.not_false, Bool.true_and,
    if_neg, Bool.false_eq_true, not_false_eq_true]
  cases ht : lookupAttr r "text" with
  | none => simp [getattrO, ht, isNotNoneV]
  | some t => cases t <;> simp [getattrO, ht, isNotNoneV]

/-- Scenario B's agent result: no payload slot, and a `usage` accessor that
raises when called. -/
def raisingUsageResult : Obj := [("usage", PyVal.vCallable true .vNone)]

/-- C7: the unwrapper never raises — for every agent result it returns
normally with the probed payload, no matter what the usage/telemetry block
does; in particular on a result with no usable slot whose usage accessor
raises, the raise is swallowed, the original object comes back, field
extraction yields all defaults, and the verdict is invalid. -/
theorem C7_usage_exception_swallowed :
    (∀ r : Obj, extract_agent_data r = .ok (probe_slots r))
    ∧ usage_block raisingUsageResult = .error .raised
    ∧ extract_agent_data raisingUsageResult = .ok (.vObj raisingUsageResult)
    ∧ extract_fields (.vObj raisingUsageResult) =
        { company := .vStr sentinelCompany
        , title := .vStr defaultTitle
        , match_score := .vInt 0
        , extracted_jd := .vStr []
        , key_improvements := .vList []
        , tailored_resume_html := .vStr []
        , cover_letter_html := .vStr [] }
    ∧ jd_invalid_check
        (extract_fields (.vObj raisingUsageResult)).extracted_jd = .ok true :=
  ⟨extract_agent_data_ok, rfl, rfl, rfl, rfl⟩

/-- C4: each expected field is read via a default-producing lookup; when the
attribute is absent from the payload, the documented default is returned
(company `"Unknown Company"`, title `"Job Title"`, score `0`, description
`""`, improvements `[]`).  The extraction function is total, so a missing
attribute can never raise. -/
theorem C4_absent_fields_default (attrs : Obj) :
    (lookupAttr attrs "company_name" = none →
      (extract_fields (.vObj attrs)).company = .vStr sentinelCompany)
    ∧ (lookupAttr attrs "job_title" = none →
      (extract_fields (.vObj attrs)).title = .vStr defaultTitle)
    ∧ (lookupAttr attrs "match_score" = none →
      (extract_fields (.vObj attrs)).match_score = .vInt 0)
    ∧ (lookupAttr attrs "extracted_job_description" = none →
      (extract_fields (.vObj attrs)).extracted_jd = .vStr [])
    ∧ (lookupAttr attrs "key_improvements" = none →
      (extract_fields (.vObj attrs)).key_improvements = .vList []) := by
  refine ⟨?_, ?_, ?_, ?_, ?_⟩ <;> intro h <;>
    simp [extract_fields, getattrV, getattrO, h]

/-- Witness for C4 on the empty payload object. -/
theorem C4_absent_fields_default_witness :
    (extract_fields (.vObj [])).company = .vStr sentinelCompany
    ∧ (extract_fields (.vObj [])).title = .vStr defaultTitle
    ∧ (extract_fields (.vObj [])).match_score = .vInt 0
    ∧ (extract_fields (.vObj [])).extracted_jd = .vStr []
    ∧ (extract_fields (.vObj [])).key_improvements = .vList [] :=
  ⟨(C4_absent_fields_default []).1 rfl,
   (C4_absent_fields_default []).2.1 rfl,
   (C4_absent_fields_default []).2.2.1 rfl,
   (C4_absent_fields_default []).2.2.2.1 rfl,
   (C4_absent_fields_default []).2.2.2.2 rfl⟩

/-- C5: the company fallback fires exactly when the extracted company equals
the sentinel `"Unknown Company"` and the `key_improvements` sequence is
non-empty, in which case the company becomes the first improvement; when the
company differs from the sentinel, or the improvements list is empty, the
company stays exactly as extracted. -/
theorem C5_company_fallback_iff (data company x : PyVal) (xs : List PyVal) :
    (company = .vStr sentinelCompany →
      getattrV data "key_improvements" (.vList []) = .vList (x :: xs) →
      company_fallback company data = .ok x)
    ∧ (pyEqStr company sentinelCompany = false →
      company_fallback company data = .ok company)
    ∧ (company = .vStr sentinelCompany →
      getattrV data "key_improvements" (.vList []) = .vList [] →
      company_fallback company data = .ok company) := by
  refine ⟨?_, ?_, ?_⟩
  · intro hc himp
    subst hc
    simp [company_fallback, himp, pyEqStr, pyTruthy, pyLen, pySubscript0,
      bind, Except.bind, pure, Except.pure]
  · intro hc
    simp [company_fallback, hc, pure, Except.pure]
  · intro hc himp
    subst hc
    simp [company_fallback, himp, pyEqStr, pyTruthy, pure, Except.pure]

/-- Witness for C5 at concrete payloads. -/
theorem C5_company_fallback_iff_witness :
    company_fallback (.vStr sentinelCompany)
        (.vObj [("key_improvements", .vList [.vStr "Acme".toList])]) =
      .ok (.vStr "Acme".toList)
    ∧ company_fallback (.vStr "Globex".toList) (.vObj []) =
      .ok (.vStr "Globex".toList)
    ∧ company_fallback (.vStr sentinelCompany)
        (.vObj [("key_improvements", .vList [])]) =
      .ok (.vStr sentinelCompany) :=
  ⟨(C5_company_fallback_iff
      (.vObj [("key_improvements", .vList [.vStr "Acme".toList])])
      (.vStr sentinelCompany) (.vStr "Acme".toList) []).1 rfl rfl,
   (C5_company_fallback_iff (.vObj []) (.vStr "Globex".toList)
      .vNone []).2.1 (by decide),
   (C5_company_fallback_iff (.vObj [("key_improvements", .vList [])])
      (.vStr sentinelCompany) .vNone []).2.2 rfl rfl⟩

/-- C10: in regenerate, each of the three persisted fields is overwritten
exactly when the corresponding payload attribute is present, non-null and
non-callable (and, for the score, `int(...)` succeeds); otherwise it keeps
its previous value, and every other job field is unchanged in every case.
Falsy unwrapped data short-circuits to a 500 with the job untouched. -/
theorem C10_regenerate_conditional_updates (job : Job) (robj : Obj) :
    (regenerate_run job (.ok robj) =
      if pyTruthy (probe_slots robj) then
        ((regenerate_apply job (probe_slots robj)),
         .ok (regenerate_apply job (probe_slots robj)).tailored_resume
           (regenerate_apply job (probe_slots robj)).cover_letter
           (regenerate_apply job (probe_slots robj)).match_score)
      else (job, .serverError))
    ∧ (∀ data : PyVal,
      ((regenerate_apply job data).tailored_resume =
        (if isNotNoneV (getattrV data "tailored_resume_html" .vNone)
            && !(isCallableV (getattrV data "tailored_resume_html" .vNone))
         then .vStr (pyStrOf (getattrV data "tailored_resume_html" .vNone))
         else job.tailored_resume))
      ∧ ((regenerate_apply job data).cover_letter =
        (if isNotNoneV (getattrV data "cover_letter_html" .vNone)
            && !(isCallableV (getattrV data "cover_letter_html" .vNone))
         then .vStr (pyStrOf (getattrV data "cover_letter_html" .vNone))
         else job.cover_letter))
      ∧ ((regenerate_apply job data).match_score =
        (if isNotNoneV (getattrV data "match_score" .vNone)
            && !(isCallableV (getattrV data "match_score" .vNone))
         then
           match pyIntOf (getattrV data "match_score" .vNone) with
           | .ok n => PyVal.vInt n
           | .error _ => job.match_score
         else job.match_score))
      ∧ (regenerate_apply job data).id = job.id
      ∧ (regenerate_apply job data).resume_id = job.resume_id
      ∧ (regenerate_apply job data).url = job.url
      ∧ (regenerate_apply job data).company = job.company
      ∧ (regenerate_apply job data).title = job.title
      ∧ (regenerate_apply job data).original_jd = job.original_jd
      ∧ (regenerate_apply job data).status = job.status) := by
  constructor
  · simp only [regenerate_run, extract_agent_data_ok]
  · intro data
    unfold regenerate_apply
    by_cases c1 : isNotNoneV (getattrV data "tailored_resume_html" .vNone)
        && !(isCallableV (getattrV data "tailored_resume_html" .vNone)) <;>
    by_cases c2 : isNotNoneV (getattrV data "cover_letter_html" .vNone)
        && !(isCallableV (getattrV data "cover_letter_html" .vNone)) <;>
    by_cases c3 : isNotNoneV (getattrV data "match_score" .vNone)
        && !(isCallableV (getattrV data "match_score" .vNone)) <;>
      simp only [c1, c2, c3, if_true, if_false, Bool.false_eq_true,
        if_neg, not_false_eq_true, ite_true, ite_false] <;>
      cases pyIntOf (getattrV data "match_score" .vNone) <;>
      simp

/-- A long enough, error-free job description (trimmed length well over
50). -/
def jd80 : PyStr :=
  "A long job description used to pass the fifty-character validation gate of the analyze endpoint.".toList

/-- A payload whose company slot holds an invokable placeholder object. -/
def callablePayload : Obj :=
  [("company_name", PyVal.vCallable false .vNone),
   ("extracted_job_description", PyVal.vStr jd80)]

/-- An agent result wrapping `callablePayload` in the `output` slot. -/
def callableResult : Obj := [("output", PyVal.vObj callablePayload)]

/-- A one-resume database for the analyze scenarios. -/
def analyzeDB : DB :=
  { resumes := [{ id := 1, name := [], content := [], is_selected := true }]
  , jobs := []
  , nextJobId := 1 }

/-- An analyze request for resume 1 with no URL and no pasted text. -/
def analyzeReq1 : AnalyzeReq :=
  { url := none, description := none, resume_id := 1 }

/-- C6 counterexample: `analyze_job` performs no callable check — a payload
whose `company_name` is an invokable placeholder sails through validation
and the invokable object is persisted as the new job's company. -/
theorem C6_counterexample_callable_persisted :
    ((analyze_job analyzeReq1 (.ok callableResult) analyzeDB).1.jobs.map
      (fun j => isCallableV j.company)) = [true] := rfl

/-- C6 amended: only `regenerate_job_content` guards its three scalar slots:
a callable value there is treated as absent and leaves the stored field
unchanged, and a failing `int(...)` coercion of the score is caught and
ignored; `analyze_job` applies no such guard (see the counterexample). -/
theorem C6_callable_guard_amended (job : Job) (data : PyVal) :
    (isCallableV (getattrV data "tailored_resume_html" .vNone) = true →
      (regenerate_apply job data).tailored_resume = job.tailored_resume)
    ∧ (isCallableV (getattrV data "cover_letter_html" .vNone) = true →
      (regenerate_apply job data).cover_letter = job.cover_letter)
    ∧ (isCallableV (getattrV data "match_score" .vNone) = true →
      (regenerate_apply job data).match_score = job.match_score)
    ∧ (∀ e, pyIntOf (getattrV data "match_score" .vNone) = .error e →
      (regenerate_apply job data).match_score = job.match_score) := by
  refine ⟨?_, ?_, ?_, ?_⟩
  · intro h
    unfold regenerate_apply
    by_cases c2 : isNotNoneV (getattrV data "cover_letter_html" .vNone)
        && !(isCallableV (getattrV data "cover_letter_html" .vNone)) <;>
    by_cases c3 : isNotNoneV (getattrV data "match_score" .vNone)
        && !(isCallableV (getattrV data "match_score" .vNone)) <;>
      cases hs : pyIntOf (getattrV data "match_score" .vNone) <;>
      simp [h, c2, c3, hs]
  · intro h
    unfold regenerate_apply
    by_cases c1 : isNotNoneV (getattrV data "tailored_resume_html" .vNone)
        && !(isCallableV (getattrV data "tailored_resume_html" .vNone)) <;>
    by_cases c3 : isNotNoneV (getattrV data "match_score" .vNone)
        && !(isCallableV (getattrV data "match_score" .vNone)) <;>
      cases hs : pyIntOf (getattrV data "match_score" .vNone) <;>
      simp [h, c1, c3, hs]
  · intro h
    unfold regenerate_apply
    by_cases c1 : isNotNoneV (getattrV data "tailored_resume_html" .vNone)
        && !(isCallableV (getattrV data "tailored_resume_html" .vNone)) <;>
    by_cases c2 : isNotNoneV (getattrV data "cover_letter_html" .vNone)
        && !(isCallableV (getattrV data "cover_letter_html" .vNone)) <;>
      simp [h, c1, c2]
  · intro e h
    unfold regenerate_apply
    by_cases c1 : isNotNoneV (getattrV data "tailored_resume_html" .vNone)
        && !(isCallableV (getattrV data "tailored_resume_html" .vNone)) <;>
    by_cases c2 : isNotNoneV (getattrV data "cover_letter_html" .vNone)
        && !(isCallableV (getattrV data "cover_letter_html" .vNone)) <;>
    by_cases c3 : isNotNoneV (getattrV data "match_score" .vNone)
        && !(isCallableV (getattrV data "match_score" .vNone)) <;>
      simp [h, c1, c2, c3]

/-- A job row used to instantiate the regenerate theorems. -/
def job0 : Job :=
  { id := 7, resume_id := 1, url := none
  , company := .vStr "Acme".toList, title := .vStr "Dev".toList
  , original_jd := .vStr jd80
  , tailored_resume := .vStr "<h1>Old resume</h1>".toList
  , cover_letter := .vStr "<p>Old cover</p>".toList
  , match_score := .vInt 42, status := .todo }

/-- A payload carrying callable placeholders in all three regenerate
slots. -/
def allCallablePayload : PyVal :=
  .vObj [("tailored_resume_html", .vCallable false .vNone),
         ("cover_letter_html", .vCallable false .vNone),
         ("match_score", .vCallable false .vNone)]

/-- Witness for C6's amended guard at concrete payloads. -/
theorem C6_callable_guard_amended_witness :
    (regenerate_apply job0 allCallablePayload).tailored_resume =
      job0.tailored_resume
    ∧ (regenerate_apply job0 allCallablePayload).cover_letter =
      job0.cover_letter
    ∧ (regenerate_apply job0 allCallablePayload).match_score =
      job0.match_score
    ∧ (regenerate_apply job0
        (.vObj [("match_score", .vStr "abc".toList)])).match_score =
      job0.match_score :=
  ⟨(C6_callable_guard_amended job0 allCallablePayload).1 rfl,
   (C6_callable_guard_amended job0 allCallablePayload).2.1 rfl,
   (C6_callable_guard_amended job0 allCallablePayload).2.2.1 rfl,
   (C6_callable_guard_amended job0
      (.vObj [("match_score", .vStr "abc".toList)])).2.2.2
      .valueError rfl⟩

/-- C8 counterexample: nothing clamps the score — a payload carrying
`match_score = 150` yields an extracted record whose score is 150, outside
the claimed 0-100 range. -/
theorem C8_counterexample_score_out_of_range :
    (extract_fields (.vObj [("match_score", .vInt 150)])).match_score =
      .vInt 150
    ∧ ¬((150 : Int) ≤ 100) :=
  ⟨rfl, by decide⟩

/-- C8 amended: the extracted `match_score` is copied verbatim from the
payload (default `0` when absent); no 0-100 range constraint is enforced
anywhere. -/
theorem C8_score_copied_verbatim_amended (attrs : Obj) (v : PyVal) :
    (lookupAttr attrs "match_score" = some v →
      (extract_fields (.vObj attrs)).match_score = v)
    ∧ (lookupAttr attrs "match_score" = none →
      (extract_fields (.vObj attrs)).match_score = .vInt 0) := by
  constructor <;> intro h <;> simp [extract_fields, getattrV, getattrO, h]

/-- Witness for C8's amended claim. -/
theorem C8_score_copied_verbatim_amended_witness :
    (extract_fields (.vObj [("match_score", .vInt 150)])).match_score =
      .vInt 150
    ∧ (extract_fields (.vObj [("job_title", .vStr "T".toList)])).match_score =
      .vInt 0 :=
  ⟨(C8_score_copied_verbatim_amended [("match_score", .vInt 150)]
      (.vInt 150)).1 rfl,
   (C8_score_copied_verbatim_amended [("job_title", .vStr "T".toList)]
      .vNone).2 rfl⟩

/-- An agent result whose payload carries the `extracted_job_description`
attribute present with value `None`. -/
def noneJdResult : Obj :=
  [("output", PyVal.vObj [("extracted_job_description", PyVal.vNone)])]

/-- C3 counterexample: a payload whose extracted description is present as
`None` fails the validity gate (it is falsy, so the gate condition
evaluates without raising), yet the operation surfaces a 500 — the
failure-log slice `extracted_jd[:100]` raises `TypeError` inside the
`try` before the `HTTPException(400)` is reached — not the claimed 400.
Nothing is persisted either way. -/
theorem C3_counterexample_none_jd_500 :
    jd_invalid_check
      (getattrV (probe_slots noneJdResult) "extracted_job_description"
        (.vStr [])) = .ok true
    ∧ pySlice100
      (getattrV (probe_slots noneJdResult) "extracted_job_description"
        (.vStr [])) = .error .typeError
    ∧ analyze_job analyzeReq1 (.ok noneJdResult) analyzeDB =
        (analyzeDB, .serverError)
    ∧ (analyze_job analyzeReq1 (.ok noneJdResult) analyzeDB).2 ≠
        .clientError 400 := by
  refine ⟨rfl, rfl, rfl, fun h => ?_⟩
  rw [show (analyze_job analyzeReq1 (.ok noneJdResult) analyzeDB).2 =
    AnalyzeResp.serverError from rfl] at h
  exact AnalyzeResp.noConfusion h

/-- C3 amended: when the extracted job description fails the validity gate
the analyze operation persists nothing — the database comes back unchanged
whether the handler's log expressions evaluate or raise; the surfaced
error is the claimed 400 provided the response-preview iteration of
`key_improvements` and the failure-log slice of the description both
succeed (otherwise the blanket handler turns the raise into a 500).
A 200 response with persistence can only arise from a gate-passing
extraction, and then exactly one job row is appended. -/
theorem C3_invalid_gate_amended :
    (∀ (req : AnalyzeReq) (res : Resume) (result : Obj) (db : DB)
        (imps : List PyVal) (pv : PyVal),
      db.resumes.find? (fun r => r.id == req.resume_id) = some res →
      pyIter (getattrV (probe_slots result) "key_improvements"
        (.vList [])) = .ok imps →
      jd_invalid_check
        (getattrV (probe_slots result) "extracted_job_description"
          (.vStr [])) = .ok true →
      pySlice100
        (getattrV (probe_slots result) "extracted_job_description"
          (.vStr [])) = .ok pv →
      analyze_job req (.ok result) db = (db, .clientError 400))
    ∧ (∀ (req : AnalyzeReq) (res : Resume) (result : Obj) (db : DB),
      db.resumes.find? (fun r => r.id == req.resume_id) = some res →
      jd_invalid_check
        (getattrV (probe_slots result) "extracted_job_description"
          (.vStr [])) = .ok true →
      (analyze_job req (.ok result) db).1 = db)
    ∧ (∀ (req : AnalyzeReq) (agent : Except PyErr Obj) (db : DB)
        (jid : Nat) (s c t cl : PyVal),
      (analyze_job req agent db).2 = .ok jid s c t cl →
      ∃ (result : Obj) (job : Job),
        agent = .ok result ∧
        jd_invalid_check
          (getattrV (probe_slots result) "extracted_job_description"
            (.vStr [])) = .ok false ∧
        (analyze_job req agent db).1.jobs = db.jobs ++ [job]) := by
  refine ⟨?_, ?_, ?_⟩
  · intro req res result db imps pv hfind hiter hgate hslice
    unfold analyze_job
    rw [hfind]
    simp only [extract_agent_data_ok, hiter, hgate, hslice]
  · intro req res result db hfind hgate
    unfold analyze_job
    rw [hfind]
    simp only [extract_agent_data_ok]
    cases hiter : pyIter (getattrV (probe_slots result) "key_improvements"
        (.vList [])) with
    | error e => rfl
    | ok imps =>
      simp only [hgate]
      cases hslice : pySlice100
          (getattrV (probe_slots result) "extracted_job_description"
            (.vStr [])) with
      | error e => rfl
      | ok pv => rfl
  · intro req agent db jid s c t cl h
    unfold analyze_job at h ⊢
    cases hfind : db.resumes.find? (fun r => r.id == req.resume_id) with
    | none => rw [hfind] at h; simp at h
    | some res =>
      rw [hfind] at h
      cases agent with
      | error e => simp at h
      | ok result =>
        simp only [extract_agent_data_ok] at h ⊢
        cases hiter : pyIter (getattrV (probe_slots result)
            "key_improvements" (.vList [])) with
        | error e => rw [hiter] at h; simp at h
        | ok imps =>
          rw [hiter] at h
          cases hgate : jd_invalid_check
              (getattrV (probe_slots result) "extracted_job_description"
                (.vStr [])) with
          | error e => rw [hgate] at h; simp at h
          | ok b =>
            cases b with
            | true =>
              rw [hgate] at h
              cases hslice : pySlice100
                  (getattrV (probe_slots result)
                    "extracted_job_description" (.vStr [])) with
              | error e => rw [hslice] at h; simp at h
              | ok pv => rw [hslice] at h; simp at h
            | false =>
              rw [hgate] at h
              cases hcf : company_fallback
                  (getattrV (probe_slots result) "company_name"
                    (.vStr sentinelCompany)) (probe_slots result) with
              | error e => rw [hcf] at h; simp at h
              | ok c2 => exact ⟨result, _, rfl, hgate, rfl⟩

/-- Witness for the amended C3: the empty payload is rejected with a 400
and an unchanged database (its log expressions evaluate fine), and the
valid concrete payload is persisted. -/
theorem C3_invalid_gate_amended_witness :
    analyze_job analyzeReq1 (.ok ([] : Obj)) analyzeDB =
      (analyzeDB, .clientError 400)
    ∧ (analyze_job analyzeReq1 (.ok ([] : Obj)) analyzeDB).1 = analyzeDB
    ∧ ∃ (result : Obj) (job : Job),
        (Except.ok callableResult : Except PyErr Obj) = .ok result ∧
        jd_invalid_check
          (getattrV (probe_slots result) "extracted_job_description"
            (.vStr [])) = .ok false ∧
        (analyze_job analyzeReq1 (.ok callableResult) analyzeDB).1.jobs =
          analyzeDB.jobs ++ [job] :=
  ⟨C3_invalid_gate_amended.1 analyzeReq1
      { id := 1, name := [], content := [], is_selected := true }
      [] analyzeDB [] (.vStr []) rfl rfl rfl rfl,
   C3_invalid_gate_amended.2.1 analyzeReq1
      { id := 1, name := [], content := [], is_selected := true }
      [] analyzeDB rfl rfl,
   C3_invalid_gate_amended.2.2 analyzeReq1 (.ok callableResult) analyzeDB
      1 (.vInt 0) (.vCallable false .vNone) (.vStr []) (.vStr []) rfl⟩

/-- Deselecting every row leaves no selected row. -/
theorem selCount_deselect_all (rs : List Resume) :
    selCount (deselect_all rs) = 0 := by
  simp [selCount, deselect_all, List.countP_map, Function.comp_def]

/-- With no duplicate ids, at most one row matches a given id. -/
theorem countP_id_le_one (rs : List Resume) (rid : Nat)
    (h : (rs.map (fun r => r.id)).Nodup) :
    rs.countP (fun r => r.id == rid) ≤ 1 := by
  have h1 := List.nodup_iff_count_le_one.mp h rid
  rw [List.count_eq_countP, List.countP_map] at h1
  exact h1

/-- Deselect-all followed by inserting a selected row yields exactly one
selected row. -/
theorem selCount_insert_selected (rs : List Resume) (x : Resume)
    (hx : x.is_selected = true) :
    selCount (deselect_all rs ++ [x]) = 1 := by
  rw [selCount, List.countP_append]
  have h0 := selCount_deselect_all rs
  rw [selCount] at h0
  rw [h0, List.countP_cons, List.countP_nil, hx]
  rfl

/-- C9: every resume-mutating operation preserves the single-selection
invariant: upload, URL import and manual paste deselect everything before
inserting the new selected row (so exactly one row ends up selected), and
update/select preserve "at most one selected" from any state satisfying it
(given the primary-key uniqueness of ids). -/
theorem C9_single_selection_invariant :
    (∀ (rs : List Resume) (newId : Nat) (name content : PyStr),
      atMostOneSelected (upload_resume rs newId name content))
    ∧ (∀ (rs : List Resume) (newId : Nat) (name content : PyStr),
      atMostOneSelected (import_resume_from_url rs newId name content))
    ∧ (∀ (rs : List Resume) (newId : Nat) (name content : PyStr),
      atMostOneSelected (add_resume_manual rs newId name content))
    ∧ (∀ (rs : List Resume) (rid : Nat) (name content : PyStr)
        (req_sel : Bool) (rs' : List Resume),
      (rs.map (fun r => r.id)).Nodup → atMostOneSelected rs →
      update_resume rs rid name content req_sel = some rs' →
      atMostOneSelected rs')
    ∧ (∀ (rs : List Resume) (rid : Nat) (rs' : List Resume),
      (rs.map (fun r => r.id)).Nodup → atMostOneSelected rs →
      set_selected_resume rs rid = some rs' →
      atMostOneSelected rs') := by
  refine ⟨?_, ?_, ?_, ?_, ?_⟩
  · intro rs newId name content
    unfold atMostOneSelected upload_resume
    rw [selCount_insert_selected rs _ rfl]
  · intro rs newId name content
    unfold atMostOneSelected import_resume_from_url
    rw [selCount_insert_selected rs _ rfl]
  · intro rs newId name content
    unfold atMostOneSelected add_resume_manual
    rw [selCount_insert_selected rs _ rfl]
  · intro rs rid name content req_sel rs' hnd hinv hupd
    unfold update_resume at hupd
    cases hfind : rs.find? (fun r => r.id == rid) with
    | none => rw [hfind] at hupd; simp at hupd
    | some resume =>
      rw [hfind] at hupd
      simp only [Option.some.injEq] at hupd
      subst hupd
      have hmem := List.mem_of_find?_eq_some hfind
      have hid : resume.id = rid := by
        have h2 := List.find?_some hfind
        simpa using h2
      cases req_sel with
      | false =>
        simp only [Bool.false_and, Bool.false_eq_true, if_neg,
          not_false_eq_true, if_false]
        unfold atMostOneSelected selCount
        rw [List.map_map, List.countP_map]
        refine le_trans (List.countP_mono_left ?_) hinv
        intro r _ hpr
        by_cases hrid : r.id = rid
        · simp [Function.comp_def, hrid] at hpr
        · simpa [Function.comp_def, hrid] using hpr
      | true =>
        cases hold : resume.is_selected with
        | false =>
          simp only [hold, Bool.not_false, Bool.true_and, if_true]
          unfold atMostOneSelected selCount deselect_all
          rw [List.map_map, List.map_map, List.countP_map]
          refine le_trans (List.countP_mono_left ?_)
            (countP_id_le_one rs rid hnd)
          intro r _ hpr
          by_cases hrid : r.id = rid
          · simp [hrid]
          · simp [Function.comp_def, hrid] at hpr
        | true =>
          simp only [hold, Bool.not_true, Bool.and_false,
            Bool.false_eq_true, if_neg, not_false_eq_true, if_false]
          unfold atMostOneSelected selCount
          rw [List.map_map, List.countP_map]
          have hcongr : rs.countP
              ((fun r => r.is_selected) ∘
                ((fun r => if r.id = rid then
                    { r with is_selected := true } else r) ∘
                  (fun r => if r.id = rid then
                    { r with name := name, content := content } else r))) =
              rs.countP (fun r => r.is_selected) := by
            refine List.countP_congr ?_
            intro r hr
            by_cases hrid : r.id = rid
            · have hre : r = resume :=
                List.inj_on_of_nodup_map hnd hr hmem (by rw [hrid, hid])
              subst hre
              simp [Function.comp_def, hrid, hold]
            · simp [Function.comp_def, hrid]
          rw [hcongr]
          exact hinv
  · intro rs rid rs' hnd hinv hset
    unfold set_selected_resume at hset
    cases hfind : rs.find? (fun r => r.id == rid) with
    | none => rw [hfind] at hset; simp at hset
    | some resume =>
      rw [hfind] at hset
      simp only [Option.some.injEq] at hset
      subst hset
      unfold atMostOneSelected selCount deselect_all
      rw [List.map_map, List.countP_map]
      refine le_trans (List.countP_mono_left ?_) (countP_id_le_one rs rid hnd)
      intro r _ hpr
      by_cases hrid : r.id = rid
      · simp [hrid]
      · simp [Function.comp_def, hrid] at hpr

/-- A two-resume state satisfying the invariant, with resume 1 selected. -/
def rs0 : List Resume :=
  [{ id := 1, name := [], content := [], is_selected := true },
   { id := 2, name := [], content := [], is_selected := false }]

/-- Witness for C9 on a concrete two-resume state. -/
theorem C9_single_selection_invariant_witness :
    atMostOneSelected (upload_resume rs0 3 [] [])
    ∧ atMostOneSelected (import_resume_from_url rs0 3 [] [])
    ∧ atMostOneSelected (add_resume_manual rs0 3 [] [])
    ∧ atMostOneSelected
        [{ id := 1, name := [], content := [], is_selected := false },
         { id := 2, name := [], content := [], is_selected := true }]
    ∧ atMostOneSelected
        [{ id := 1, name := [], content := [], is_selected := false },
         { id := 2, name := [], content := [], is_selected := true }] :=
  ⟨C9_single_selection_invariant.1 rs0 3 [] [],
   C9_single_selection_invariant.2.1 rs0 3 [] [],
   C9_single_selection_invariant.2.2.1 rs0 3 [] [],
   C9_single_selection_invariant.2.2.2.1 rs0 2 [] [] true _
     (by decide) (by decide) rfl,
   C9_single_selection_invariant.2.2.2.2 rs0 2 _
     (by decide) (by decide) rfl⟩

end JobFit
